import Mathlib

/-!
Verification development for `stock_screener_raw.py`, a single-script stock
screener that parses a free-form list of ticker symbols, fetches per-ticker
data from two external providers (a market-data source and a filings
registry), assembles one flat row per ticker, computes summary counts and
serializes the table to CSV.

The script is embedded shallowly: strings are modelled as `List Char` where
the parsing logic manipulates characters, network calls are modelled by
explicit response values fed to the fetch functions, and Python `dict`s with
a fixed key set are modelled as structures.  Numeric provider fields are
modelled as `Rat` (the claims under study depend only on how values are
plumbed, never on floating-point rounding).
-/

/-! ## Python string primitives (over `List Char`)

`pySplitP p` models Python's `str.split(sep)` semantics for a single
character separator generalized to a predicate: every separator occurrence
splits, empty pieces are kept, and the empty string yields `[[]]`
(Python: `"".split(",") == [""]`). -/

def pySplitP (p : Char → Bool) : List Char → List (List Char)
  | [] => [[]]
  | c :: t =>
    match pySplitP p t with
    | [] => [[c]]
    | h :: r => if p c then [] :: h :: r else (c :: h) :: r

def pySplit (sep : Char) : List Char → List (List Char) :=
  pySplitP (fun c => c == sep)

/-- The whitespace characters stripped by Python's `str.strip()`
(ASCII subset; the inputs of interest contain no other whitespace). -/
def pyIsSpace (c : Char) : Bool :=
  c == ' ' || c == '\t' || c == '\n' || c == '\r' || c == '\x0b' || c == '\x0c'

def pyStripLeft (l : List Char) : List Char := l.dropWhile pyIsSpace

def pyStripRight (l : List Char) : List Char := (l.reverse.dropWhile pyIsSpace).reverse

/-- Python `str.strip()`: remove leading and trailing whitespace. -/
def pyStrip (l : List Char) : List Char := pyStripRight (pyStripLeft l)

/-- Python `str.upper()` (per-character; all inputs of interest are ASCII). -/
def pyUpper (l : List Char) : List Char := l.map Char.toUpper

/-! ## Ticker parsing (source lines 250-259)

```
if stock_list:
    tickers = []
    lines = stock_list.strip().split('\n')
    for line in lines:
        line_tickers = [t.strip().upper() for t in line.split(',')]
        tickers.extend([t for t in line_tickers if t])
    tickers = list(set(tickers))  # Remove duplicates
else:
    tickers = []
```

CPython's `list(set(...))` enumerates the set in an unspecified,
hash-dependent order; the embedding fixes `List.dedup` as a concrete
deduplication, which is faithful up to the order of the resulting list
(every set-level statement below is order-independent). -/

def parseTickers (stock_list : List Char) : List (List Char) :=
  if stock_list ≠ [] then
    ((pySplit '\n' (pyStrip stock_list)).flatMap
      (fun line =>
        ((pySplit ',' line).map (fun t => pyUpper (pyStrip t))).filter (fun t => t ≠ []))).dedup
  else []

/-- Modelled from the spec's words (for the refinement claim C1): "the set of
non-empty, whitespace-trimmed, uppercased tokens obtained by splitting the
text on newlines and then on commas within each line". -/
def specTickerTokens (text : List Char) : List (List Char) :=
  (((pySplit '\n' text).flatMap (pySplit ',')).map
      (fun t => pyUpper (pyStrip t))).filter (fun t => t ≠ [])

def specTickerSet (text : List Char) : Finset (List Char) :=
  (specTickerTokens text).toFinset

/-! ### Parsing lemmas -/

theorem pySplitP_ne_nil (p : Char → Bool) (l : List Char) : pySplitP p l ≠ [] := by
  cases l with
  | nil => simp [pySplitP]
  | cons c t =>
    unfold pySplitP
    cases h : pySplitP p t with
    | nil => simp
    | cons h r => by_cases hpc : p c <;> simp [hpc]

theorem pySplitP_cons (p : Char → Bool) (c : Char) (t : List Char) :
    pySplitP p (c :: t) =
      match pySplitP p t with
      | [] => [[c]]
      | h :: r => if p c then [] :: h :: r else (c :: h) :: r := by
  rfl

theorem pySplitP_cons_pos {p : Char → Bool} {c : Char} (t : List Char) (h : p c = true) :
    pySplitP p (c :: t) = [] :: pySplitP p t := by
  rw [pySplitP_cons]
  cases ht : pySplitP p t with
  | nil => exact absurd ht (pySplitP_ne_nil p t)
  | cons hh r => simp [h]

theorem pySplitP_cons_neg {p : Char → Bool} {c : Char} (t : List Char) (h : p c = false) :
    ∃ hh r, pySplitP p t = hh :: r ∧ pySplitP p (c :: t) = (c :: hh) :: r := by
  cases ht : pySplitP p t with
  | nil => exact absurd ht (pySplitP_ne_nil p t)
  | cons hh r =>
    refine ⟨hh, r, rfl, ?_⟩
    rw [pySplitP_cons, ht]
    simp [h]

/-- Splitting on one separator and then splitting every piece on a second
separator is splitting on the union of the separators. -/
theorem flatMap_pySplitP (p q : Char → Bool) (l : List Char) :
    (pySplitP p l).flatMap (pySplitP q) = pySplitP (fun c => p c || q c) l := by
  induction l with
  | nil => simp [pySplitP]
  | cons c t ih =>
    by_cases hpc : p c
    · rw [pySplitP_cons_pos t hpc, pySplitP_cons_pos t (show (p c || q c) = true by simp [hpc])]
      rw [List.flatMap_cons, ← ih]
      simp [pySplitP]
    · have hp : p c = false := by simpa using hpc
      obtain ⟨hh, r, ht, hc⟩ := pySplitP_cons_neg t hp
      rw [hc]
      by_cases hqc : q c
      · rw [pySplitP_cons_pos t (show (p c || q c) = true by simp [hqc]), ← ih, ht]
        rw [List.flatMap_cons, List.flatMap_cons, pySplitP_cons_pos hh hqc]
        simp
      · have hq : q c = false := by simpa using hqc
        have hpq : (fun c => p c || q c) c = false := by simp [hp, hq]
        obtain ⟨hh', r', ht', hc'⟩ := pySplitP_cons_neg (p := fun c => p c || q c) t hpq
        obtain ⟨sh, sr, hsh, hch⟩ := pySplitP_cons_neg (p := q) hh hq
        have key : pySplitP q hh ++ r.flatMap (pySplitP q) = hh' :: r' := by
          rw [← ht', ← ih, ht, List.flatMap_cons]
        rw [hsh, List.cons_append] at key
        injection key with k1 k2
        rw [hc', List.flatMap_cons, hch, List.cons_append, k1, k2]

/-! ### Whitespace-stripping lemmas -/

theorem pyStrip_nil : pyStrip [] = [] := rfl

theorem pyStrip_cons_ws {c : Char} (h : pyIsSpace c = true) (x : List Char) :
    pyStrip (c :: x) = pyStrip x := by
  unfold pyStrip pyStripLeft
  rw [List.dropWhile_cons_of_pos h]

theorem pyStrip_append_ws {c : Char} (h : pyIsSpace c = true) (x : List Char) :
    pyStrip (x ++ [c]) = pyStrip x := by
  unfold pyStrip pyStripLeft
  rw [List.dropWhile_append]
  by_cases hx : (x.dropWhile pyIsSpace).isEmpty
  · rw [if_pos hx]
    rw [List.isEmpty_iff] at hx
    rw [hx]
    simp [pyStripRight, List.dropWhile_cons_of_pos h]
  · rw [if_neg hx]
    unfold pyStripRight
    rw [List.reverse_append]
    simp only [List.reverse_cons, List.reverse_nil, List.nil_append, List.singleton_append]
    rw [List.dropWhile_cons_of_pos h]

/-! ### Token-list invariance under stripping

`toksP l` is the list of cleaned tokens produced by splitting `l` on both
separators at once; the bridge to the two-stage splitting of the code and the
spec is `flatMap_pySplitP`. -/

def nlOrComma (c : Char) : Bool := (c == '\n') || (c == ',')

def cleanTok (t : List Char) : List Char := pyUpper (pyStrip t)

def toksP (l : List Char) : List (List Char) :=
  ((pySplitP nlOrComma l).map cleanTok).filter (fun t => t ≠ [])

theorem cleanTok_nil : cleanTok [] = [] := rfl

theorem toksP_cons_ws {c : Char} (h : pyIsSpace c = true) (t : List Char) :
    toksP (c :: t) = toksP t := by
  by_cases hsep : nlOrComma c
  · unfold toksP
    rw [pySplitP_cons_pos t hsep, List.map_cons, List.filter_cons]
    have : cleanTok [] = [] := rfl
    simp [this]
  · have hsep' : nlOrComma c = false := by simpa using hsep
    obtain ⟨hh, r, ht, hc⟩ := pySplitP_cons_neg t hsep'
    unfold toksP
    rw [hc, ht, List.map_cons, List.map_cons]
    have : cleanTok (c :: hh) = cleanTok hh := by
      unfold cleanTok
      rw [pyStrip_cons_ws h]
    rw [this]

theorem pySplitP_append_sep {p : Char → Bool} {c : Char} (h : p c = true) (x : List Char) :
    pySplitP p (x ++ [c]) = pySplitP p x ++ [[]] := by
  induction x with
  | nil =>
    rw [List.nil_append, pySplitP_cons_pos [] h]
    rfl
  | cons d x' ih =>
    rw [List.cons_append]
    by_cases hd : p d
    · rw [pySplitP_cons_pos _ hd, pySplitP_cons_pos _ hd, ih, List.cons_append]
    · have hd' : p d = false := by simpa using hd
      obtain ⟨hh, r, ht, hc⟩ := pySplitP_cons_neg (x' ++ [c]) hd'
      obtain ⟨hh0, r0, ht0, hc0⟩ := pySplitP_cons_neg x' hd'
      rw [ht0, List.cons_append] at ih
      rw [ht] at ih
      injection ih with k1 k2
      rw [hc, hc0, k1, k2, List.cons_append]

/-- Append `c` to the last piece of a (never-empty) piece list. -/
def addLast (c : Char) : List (List Char) → List (List Char)
  | [] => [[c]]
  | [h] => [h ++ [c]]
  | h :: h' :: r => h :: addLast c (h' :: r)

theorem pySplitP_append_notSep {p : Char → Bool} {c : Char} (h : p c = false) (x : List Char) :
    pySplitP p (x ++ [c]) = addLast c (pySplitP p x) := by
  induction x with
  | nil =>
    obtain ⟨hh, r, ht, hc⟩ := pySplitP_cons_neg (p := p) [] h
    rw [List.nil_append, hc]
    cases ht
    rfl
  | cons d x' ih =>
    rw [List.cons_append]
    by_cases hd : p d
    · rw [pySplitP_cons_pos _ hd, pySplitP_cons_pos _ hd, ih]
      cases hx : pySplitP p x' with
      | nil => exact absurd hx (pySplitP_ne_nil p x')
      | cons hh r => rfl
    · have hd' : p d = false := by simpa using hd
      obtain ⟨hh, r, ht, hc⟩ := pySplitP_cons_neg (x' ++ [c]) hd'
      obtain ⟨hh0, r0, ht0, hc0⟩ := pySplitP_cons_neg x' hd'
      rw [hc, hc0]
      rw [ht, ht0] at ih
      cases r0 with
      | nil =>
        simp only [addLast] at ih ⊢
        injection ih with k1 k2
        rw [k2, k1]
        simp
      | cons q0 qr =>
        simp only [addLast] at ih ⊢
        injection ih with k1 k2
        rw [k1, k2]

theorem map_cleanTok_addLast {c : Char} (h : pyIsSpace c = true) :
    ∀ (hd : List Char) (r : List (List Char)),
      (addLast c (hd :: r)).map cleanTok = (hd :: r).map cleanTok := by
  intro hd r
  induction r generalizing hd with
  | nil =>
    simp only [addLast, List.map_cons, List.map_nil]
    unfold cleanTok
    rw [pyStrip_append_ws h]
  | cons h' r' ih =>
    simp only [addLast, List.map_cons]
    have := ih h'
    simp only [List.map_cons] at this
    rw [this]

theorem toksP_append_ws {c : Char} (h : pyIsSpace c = true) (t : List Char) :
    toksP (t ++ [c]) = toksP t := by
  by_cases hsep : nlOrComma c
  · unfold toksP
    rw [pySplitP_append_sep hsep, List.map_append, List.filter_append]
    simp [cleanTok_nil]
  · have hsep' : nlOrComma c = false := by simpa using hsep
    unfold toksP
    rw [pySplitP_append_notSep hsep']
    cases hx : pySplitP nlOrComma t with
    | nil => exact absurd hx (pySplitP_ne_nil nlOrComma t)
    | cons hh r => rw [map_cleanTok_addLast h hh r]

theorem toksP_ws_left (ws : List Char) (hws : ∀ c ∈ ws, pyIsSpace c = true) (x : List Char) :
    toksP (ws ++ x) = toksP x := by
  induction ws with
  | nil => rw [List.nil_append]
  | cons c ws' ih =>
    rw [List.cons_append, toksP_cons_ws (hws c (List.mem_cons_self c ws'))]
    exact ih (fun d hd => hws d (List.mem_cons_of_mem c hd))

theorem toksP_ws_right (ws : List Char) (hws : ∀ c ∈ ws, pyIsSpace c = true) :
    ∀ x : List Char, toksP (x ++ ws) = toksP x := by
  induction ws with
  | nil => intro x; rw [List.append_nil]
  | cons c ws' ih =>
    intro x
    have : x ++ c :: ws' = (x ++ [c]) ++ ws' := by simp
    rw [this, ih (fun d hd => hws d (List.mem_cons_of_mem c hd)),
      toksP_append_ws (hws c (List.mem_cons_self c ws'))]

/-- The cleaned token list is unchanged by stripping the whole input first:
leading/trailing whitespace only produces empty or whitespace-padded tokens,
which the per-token strip and the empties filter erase anyway. -/
theorem toksP_pyStrip (l : List Char) : toksP (pyStrip l) = toksP l := by
  have h1 : toksP (pyStripLeft l) = toksP l := by
    conv_rhs => rw [← List.takeWhile_append_dropWhile (p := pyIsSpace) (l := l)]
    exact (toksP_ws_left _ (fun c hc => List.mem_takeWhile_imp hc) _).symm
  have h2 : toksP (pyStripRight (pyStripLeft l)) = toksP (pyStripLeft l) := by
    set y := pyStripLeft l with hy
    have hdecomp : y = pyStripRight y ++ (y.reverse.takeWhile pyIsSpace).reverse := by
      conv_lhs => rw [← List.reverse_reverse y,
        ← List.takeWhile_append_dropWhile (p := pyIsSpace) (l := y.reverse)]
      rw [List.reverse_append]
      rfl
    conv_rhs => rw [hdecomp]
    exact (toksP_ws_right _ (fun c hc => by
      have := List.mem_reverse.mp hc
      exact List.mem_takeWhile_imp this) _).symm
  unfold pyStrip
  rw [h2, h1]

/-! ### Bridging the two-stage splits of code and spec to `toksP` -/

theorem specToks_eq_toksP (l : List Char) : specTickerTokens l = toksP l := by
  unfold specTickerTokens toksP pySplit nlOrComma cleanTok
  rw [flatMap_pySplitP]

theorem codeToks_eq_toksP (l : List Char) :
    (pySplit '\n' l).flatMap
      (fun line =>
        ((pySplit ',' line).map (fun t => pyUpper (pyStrip t))).filter (fun t => t ≠ []))
      = toksP l := by
  unfold toksP pySplit nlOrComma cleanTok
  rw [← flatMap_pySplitP (fun c => c == '\n') (fun c => c == ','), List.map_flatMap,
    List.filter_flatMap]

theorem parseTickers_toFinset (text : List Char) :
    (parseTickers text).toFinset = specTickerSet text := by
  unfold parseTickers specTickerSet
  by_cases h : text = []
  · subst h
    rw [if_neg (by simp)]
    rfl
  · rw [if_pos h, codeToks_eq_toksP, toksP_pyStrip, ← specToks_eq_toksP]
    ext a
    simp [List.mem_toFinset, List.mem_dedup]

/-- C1: for every free-form input text the ticker parser yields exactly the
set of non-empty, whitespace-trimmed, uppercased tokens obtained by splitting
the text on newlines and then on commas within each line, with duplicates
collapsed; in particular `"aapl, MSFT\nmsft\n\nGOOGL "` yields
`{AAPL, MSFT, GOOGL}` and empty input yields the empty set. -/
theorem c1_ticker_parser_set :
    (∀ text : List Char, (parseTickers text).toFinset = specTickerSet text) ∧
    (parseTickers ("aapl, MSFT\nmsft\n\nGOOGL ").toList).toFinset
      = {("AAPL").toList, ("MSFT").toList, ("GOOGL").toList} ∧
    parseTickers [] = [] ∧ specTickerSet [] = ∅ := by
  refine ⟨parseTickers_toFinset, by decide, rfl, rfl⟩

/-! ## Data model

`Val` is the type of cell values stored in an assembled row: Python `None`
(pandas null), strings, numbers and booleans. -/

inductive Val
  | null
  | str (s : String)
  | num (q : Rat)
  | bool (b : Bool)
deriving DecidableEq, Repr

def Val.ofOptStr : Option String → Val
  | some s => .str s
  | none => .null

def Val.ofOptNum : Option Rat → Val
  | some q => .num q
  | none => .null

/-- Python `str(e)[:n]` / `str(x)[:n]`: the first `n` characters. -/
def pyTake (n : Nat) (s : String) : String := String.mk (s.toList.take n)

/-- Python `f"{x}"` on an optional string: `None` prints as `"None"`. -/
def pyShowOptStr : Option String → String
  | some s => s
  | none => "None"

/-! ## SEC filing metadata lookup (`get_sec_filings_metadata`, lines 30-47)

The HTTP interaction is abstracted into a response value: either the
transport call raises (connection error, timeout, ...) with an exception
message, or it yields a status code together with the result of
`response.json()` — itself either a parse/shape exception or well-formed
data.  The registry JSON shape used by the code is
`data['filings']['filings'] = [entries]`, where either key may be missing
(`Option`) and the inner list may be empty. -/

structure FilingEntry where
  filingDate : Option String
  accessionNumber : Option String
deriving DecidableEq, Repr

structure SecJsonData where
  filings : Option (Option (List FilingEntry))
deriving DecidableEq, Repr

inductive SecResponse
  | raise (msg : String)
  | ok (statusCode : Nat) (body : Except String SecJsonData)

/-- Return value of `get_sec_filings_metadata`: the dict
`{'filing_date': _, 'accession_number': _, 'status': _}`. -/
structure SecMeta where
  filing_date : Option String
  accession_number : Option String
  status : String
deriving DecidableEq, Repr

def get_sec_filings_metadata : SecResponse → SecMeta
  | .raise e => ⟨none, none, "⚠️ Error: " ++ pyTake 30 e⟩
  | .ok statusCode body =>
    if statusCode = 200 then
      match body with
      | .error e => ⟨none, none, "⚠️ Error: " ++ pyTake 30 e⟩
      | .ok data =>
        match data.filings with
        | some (some (filing :: _)) =>
          ⟨filing.filingDate, filing.accessionNumber, "✅ Found"⟩
        | _ => ⟨none, none, "❌ Not Found"⟩
    else ⟨none, none, "❌ Not Found"⟩

/-! ## SEC financial data (`get_sec_financial_data`, lines 49-130)

`SecEnv` packages the external responses consumed by one call:
  * `metaResp` — the response seen by `get_sec_filings_metadata`;
  * `cikResp` — the opportunistic CIK lookup (lines 94-101): `some c` when
    the request succeeds with HTTP 200 and the JSON has key `cik_str` = `c`;
    `none` for every failure mode (exception, non-200, missing key), all of
    which the bare `except: pass` silently ignores;
  * `assetsResp` — the companyfacts `Assets.json` fetch (lines 107-120):
    `some l` when the request succeeds with HTTP 200 and the JSON has
    `units.USD` = `l` (each entry's `.get('val')` is an `Option Rat`);
    `none` for every failure mode, silently ignored likewise. -/

structure SecEnv where
  metaResp : SecResponse
  cikResp : Option Nat
  assetsResp : Option (List (Option Rat))

/-- The `raw_data` dict initialized at lines 54-82: every field `None`. -/
structure SecRaw where
  total_assets : Option Rat := none
  total_liabilities : Option Rat := none
  total_equity : Option Rat := none
  total_debt_short_term : Option Rat := none
  total_debt_long_term : Option Rat := none
  cash : Option Rat := none
  revenue : Option Rat := none
  revenue_prior_year : Option Rat := none
  cogs : Option Rat := none
  gross_profit : Option Rat := none
  net_income : Option Rat := none
  net_income_prior_year : Option Rat := none
  eps_current : Option Rat := none
  eps_prior_year : Option Rat := none
  operating_cash_flow : Option Rat := none
  capex : Option Rat := none
  net_debt_issued : Option Rat := none
  interest_paid : Option Rat := none
  filing_date : Option String := none
  sec_status : Option String := none
deriving DecidableEq, Repr

def secRawInit : SecRaw := {}

/-- `get_sec_financial_data(ticker)` as called by the main loop (with the
`cik` parameter left at its default `None`).  The early return at lines
90-91 fires whenever the metadata status is not exactly `'✅ Found'`; on the
found path the status is overwritten at line 124 with
`f"{status} | Filing: {filing_date}"`.  Python's `if cik:` treats `0` as
falsy, hence the extra `c ≠ 0` test. -/
def get_sec_financial_data (env : SecEnv) : SecRaw :=
  let fm := get_sec_filings_metadata env.metaResp
  let base : SecRaw := { secRawInit with filing_date := fm.filing_date, sec_status := some fm.status }
  if fm.status ≠ "✅ Found" then base
  else
    let ta : Option Rat :=
      match env.cikResp with
      | some c =>
        if c ≠ 0 then
          match env.assetsResp with
          | some usd =>
            match usd.getLast? with
            | some v => v
            | none => none
          | none => none
        else none
      | none => none
    { base with
      total_assets := ta,
      sec_status := some (fm.status ++ " | Filing: " ++ pyShowOptStr fm.filing_date) }

/-! ## Yahoo Finance data (`get_yahoo_finance_data`, lines 136-227)

`YahooOutcome` abstracts the two network calls: `.raise msg` when
`yf.Ticker`, `stock.info` or `stock.history` raises with message `msg`;
`.ok info hist` when both return, with `info` the (optional-valued) quote
dict and `hist` the one-year daily-close series (empty when no history). -/

structure YahooInfo where
  currentPrice : Option Rat := none
  marketCap : Option Rat := none
  sharesOutstanding : Option Rat := none
  trailingPE : Option Rat := none
  trailingEps : Option Rat := none
  epsTrailingTwelveMonths : Option Rat := none
  dividendYield : Option Rat := none
  bookValue : Option Rat := none
  priceToBook : Option Rat := none
  grossMargins : Option Rat := none
  profitMargins : Option Rat := none
  returnOnAssets : Option Rat := none
  returnOnEquity : Option Rat := none
  totalRevenue : Option Rat := none
  netIncomeToCommon : Option Rat := none
  totalDebt : Option Rat := none
  netDebtToEbitda : Option Rat := none
  debtToEquity : Option Rat := none
  fiftyTwoWeekHigh : Option Rat := none
  fiftyTwoWeekLow : Option Rat := none
  averageVolume : Option Rat := none
deriving DecidableEq, Repr

inductive YahooOutcome
  | raise (msg : String)
  | ok (info : YahooInfo) (hist : List Rat)

/-- The `raw_data` dict initialized at lines 138-177: every field `None`. -/
structure RawYahoo where
  current_price : Option Rat := none
  market_cap : Option Rat := none
  shares_outstanding : Option Rat := none
  trailing_pe : Option Rat := none
  eps_ttm : Option Rat := none
  eps_trailing : Option Rat := none
  dividend_yield : Option Rat := none
  book_value : Option Rat := none
  pb_ratio : Option Rat := none
  gross_margin : Option Rat := none
  net_margin : Option Rat := none
  roa : Option Rat := none
  roe : Option Rat := none
  revenue_ttm : Option Rat := none
  net_income_ttm : Option Rat := none
  total_debt : Option Rat := none
  net_debt : Option Rat := none
  debt_to_equity : Option Rat := none
  price_52w_high : Option Rat := none
  price_52w_low : Option Rat := none
  avg_volume : Option Rat := none
  daily_closes : Option (List Rat) := none
  historical_data : Option (List Rat) := none
  status : Option String := none
deriving DecidableEq, Repr

def yahooInit : RawYahoo := {}

/-- Python truthiness of an optional number: `None` and `0` are falsy.
This drives the `or` at line 185. -/
def pyTruthy : Option Rat → Bool
  | none => false
  | some x => x != 0

/-- The exception message raised by `hist['Close'].iloc[-1]` on an empty
history (pandas `IndexError`); its exact text is irrelevant to the claims. -/
def ilocOobMsg : String := "single positional indexer is out-of-bounds"

/-- The assignments at lines 185-221, reached when the `current_price` line
did not raise: `price` is the value produced by
`info.get('currentPrice') or hist['Close'].iloc[-1]`. -/
def yahooFill (info : YahooInfo) (hist : List Rat) (price : Option Rat) : RawYahoo :=
  { current_price := price,
    market_cap := info.marketCap,
    shares_outstanding := info.sharesOutstanding,
    trailing_pe := info.trailingPE,
    eps_ttm := info.trailingEps,
    eps_trailing := info.epsTrailingTwelveMonths,
    dividend_yield := info.dividendYield,
    book_value := info.bookValue,
    pb_ratio := info.priceToBook,
    gross_margin := info.grossMargins,
    net_margin := info.profitMargins,
    roa := info.returnOnAssets,
    roe := info.returnOnEquity,
    revenue_ttm := info.totalRevenue,
    net_income_ttm := info.netIncomeToCommon,
    total_debt := info.totalDebt,
    net_debt := info.netDebtToEbitda,
    debt_to_equity := info.debtToEquity,
    price_52w_high := info.fiftyTwoWeekHigh,
    price_52w_low := info.fiftyTwoWeekLow,
    avg_volume := info.averageVolume,
    daily_closes := if hist.isEmpty then none else some hist,
    historical_data := if hist.isEmpty then none else some hist,
    status := some "✅ Success" }

/-- `get_yahoo_finance_data`: on any exception the initialized dict is
returned with only `status` set to `"❌ Error: " + str(e)` (line 226 — note:
unlike the SEC fetchers, the message is NOT truncated).  The first
assignment, `info.get('currentPrice') or hist['Close'].iloc[-1]`, raises
when the live quote is falsy and the history is empty; every later
assignment is a non-raising `info.get`. -/
def get_yahoo_finance_data : YahooOutcome → RawYahoo
  | .raise e => { yahooInit with status := some ("❌ Error: " ++ e) }
  | .ok info hist =>
    if pyTruthy info.currentPrice then yahooFill info hist info.currentPrice
    else
      match hist.getLast? with
      | some c => yahooFill info hist (some c)
      | none => { yahooInit with status := some ("❌ Error: " ++ ilocOobMsg) }

/-! ## Row assembly (`raw_entry`, lines 291-356)

A row is the ordered association list built by the dict literal; Python
dicts preserve insertion order, so the declared column order is the literal
order below. -/

abbrev Row : Type := List (String × Val)

def raw_entry (ticker : String) (sec_data : SecRaw) (yahoo_data : RawYahoo) : Row :=
  [("Ticker", Val.str ticker),
   ("SEC_Filing_Date", Val.ofOptStr sec_data.filing_date),
   ("SEC_Status", Val.ofOptStr sec_data.sec_status),
   ("Yahoo_Status", Val.ofOptStr yahoo_data.status),
   ("Yahoo_Price", Val.ofOptNum yahoo_data.current_price),
   ("SEC_Total_Assets", Val.ofOptNum sec_data.total_assets),
   ("SEC_Total_Liabilities", Val.ofOptNum sec_data.total_liabilities),
   ("SEC_Total_Equity", Val.ofOptNum sec_data.total_equity),
   ("SEC_Total_Debt_ST", Val.ofOptNum sec_data.total_debt_short_term),
   ("SEC_Total_Debt_LT", Val.ofOptNum sec_data.total_debt_long_term),
   ("SEC_Cash", Val.ofOptNum sec_data.cash),
   ("SEC_Revenue_Current", Val.ofOptNum sec_data.revenue),
   ("SEC_Revenue_Prior", Val.ofOptNum sec_data.revenue_prior_year),
   ("SEC_COGS", Val.ofOptNum sec_data.cogs),
   ("SEC_Gross_Profit", Val.ofOptNum sec_data.gross_profit),
   ("SEC_Net_Income_Current", Val.ofOptNum sec_data.net_income),
   ("SEC_Net_Income_Prior", Val.ofOptNum sec_data.net_income_prior_year),
   ("SEC_EPS_Current", Val.ofOptNum sec_data.eps_current),
   ("SEC_EPS_Prior", Val.ofOptNum sec_data.eps_prior_year),
   ("SEC_Operating_CF", Val.ofOptNum sec_data.operating_cash_flow),
   ("SEC_CapEx", Val.ofOptNum sec_data.capex),
   ("SEC_Net_Debt_Issued", Val.ofOptNum sec_data.net_debt_issued),
   ("SEC_Interest_Paid", Val.ofOptNum sec_data.interest_paid),
   ("Yahoo_Market_Cap", Val.ofOptNum yahoo_data.market_cap),
   ("Yahoo_Shares_Out", Val.ofOptNum yahoo_data.shares_outstanding),
   ("Yahoo_P/E_Trailing", Val.ofOptNum yahoo_data.trailing_pe),
   ("Yahoo_EPS_TTM", Val.ofOptNum yahoo_data.eps_ttm),
   ("Yahoo_EPS_Trailing", Val.ofOptNum yahoo_data.eps_trailing),
   ("Yahoo_Dividend_Yield", Val.ofOptNum yahoo_data.dividend_yield),
   ("Yahoo_Book_Value", Val.ofOptNum yahoo_data.book_value),
   ("Yahoo_P/B", Val.ofOptNum yahoo_data.pb_ratio),
   ("Yahoo_Gross_Margin", Val.ofOptNum yahoo_data.gross_margin),
   ("Yahoo_Net_Margin", Val.ofOptNum yahoo_data.net_margin),
   ("Yahoo_ROA", Val.ofOptNum yahoo_data.roa),
   ("Yahoo_ROE", Val.ofOptNum yahoo_data.roe),
   ("Yahoo_Revenue_TTM", Val.ofOptNum yahoo_data.revenue_ttm),
   ("Yahoo_Net_Income_TTM", Val.ofOptNum yahoo_data.net_income_ttm),
   ("Yahoo_Total_Debt", Val.ofOptNum yahoo_data.total_debt),
   ("Yahoo_Net_Debt", Val.ofOptNum yahoo_data.net_debt),
   ("Yahoo_D/E_Ratio", Val.ofOptNum yahoo_data.debt_to_equity),
   ("Yahoo_52W_High", Val.ofOptNum yahoo_data.price_52w_high),
   ("Yahoo_52W_Low", Val.ofOptNum yahoo_data.price_52w_low),
   ("Yahoo_Avg_Volume", Val.ofOptNum yahoo_data.avg_volume),
   ("Yahoo_Daily_Closes_Available", Val.bool yahoo_data.daily_closes.isSome)]

/-- The declared column set, in declaration order. -/
def declaredColumns : List String :=
  ["Ticker", "SEC_Filing_Date", "SEC_Status", "Yahoo_Status", "Yahoo_Price",
   "SEC_Total_Assets", "SEC_Total_Liabilities", "SEC_Total_Equity",
   "SEC_Total_Debt_ST", "SEC_Total_Debt_LT", "SEC_Cash",
   "SEC_Revenue_Current", "SEC_Revenue_Prior", "SEC_COGS", "SEC_Gross_Profit",
   "SEC_Net_Income_Current", "SEC_Net_Income_Prior", "SEC_EPS_Current",
   "SEC_EPS_Prior", "SEC_Operating_CF", "SEC_CapEx", "SEC_Net_Debt_Issued",
   "SEC_Interest_Paid", "Yahoo_Market_Cap", "Yahoo_Shares_Out",
   "Yahoo_P/E_Trailing", "Yahoo_EPS_TTM", "Yahoo_EPS_Trailing",
   "Yahoo_Dividend_Yield", "Yahoo_Book_Value", "Yahoo_P/B",
   "Yahoo_Gross_Margin", "Yahoo_Net_Margin", "Yahoo_ROA", "Yahoo_ROE",
   "Yahoo_Revenue_TTM", "Yahoo_Net_Income_TTM", "Yahoo_Total_Debt",
   "Yahoo_Net_Debt", "Yahoo_D/E_Ratio", "Yahoo_52W_High", "Yahoo_52W_Low",
   "Yahoo_Avg_Volume", "Yahoo_Daily_Closes_Available"]

theorem raw_entry_keys (t : String) (sec : SecRaw) (yah : RawYahoo) :
    (raw_entry t sec yah).map Prod.fst = declaredColumns := rfl

/-! ## Main loop, summary metrics and CSV export (lines 268-399) -/

/-- The external world seen by one ticker's iteration of the fetch loop. -/
structure TickerEnv where
  sec : SecEnv
  yahoo : YahooOutcome

structure ScreenerResult where
  rows : List Row
  totalTickers : Nat
  secFound : Nat
  yahooSuccess : Nat

/-- `df_raw[df_raw['Ticker']==ticker]['SEC_Status'].values[0]`: the first row
whose `Ticker` column equals `t`. -/
def rowFor (rows : List Row) (t : String) : Option Row :=
  rows.find? (fun r => List.lookup "Ticker" r == some (Val.str t))

/-- One run of the fetch loop (lines 277-358) followed by the summary-metric
block (lines 376-385): one row per parsed ticker, in order, and the three
counts.  The two summary counts scan the tickers and compare the row's
status cell for EXACT equality with the success sentinel (lines 380, 384). -/
def runScreener (input : List Char) (env : List Char → TickerEnv) : ScreenerResult :=
  let tickers := parseTickers input
  let rows := tickers.map (fun t =>
    raw_entry (String.mk t) (get_sec_financial_data (env t).sec)
      (get_yahoo_finance_data (env t).yahoo))
  { rows := rows,
    totalTickers := tickers.length,
    secFound := (tickers.filter (fun t =>
      match rowFor rows (String.mk t) with
      | some r => List.lookup "SEC_Status" r == some (Val.str "✅ Found")
      | none => false)).length,
    yahooSuccess := (tickers.filter (fun t =>
      match rowFor rows (String.mk t) with
      | some r => List.lookup "Yahoo_Status" r == some (Val.str "✅ Success")
      | none => false)).length }

/-- CSV field quoting (`pandas.to_csv` default QUOTE_MINIMAL). -/
def csvField (s : String) : String :=
  if s.toList.any (fun c => c == ',' || c == '"' || c == '\n' || c == '\r') then
    "\"" ++ String.mk (s.toList.flatMap (fun c => if c == '"' then ['"', '"'] else [c])) ++ "\""
  else s

/-- How a cell value prints in the CSV body (null prints as empty). -/
def csvCell : Val → String
  | .null => ""
  | .str s => s
  | .num q => toString q
  | .bool b => if b then "True" else "False"

/-- `df_raw.to_csv(index=False)`: header line of column names, then one line
per row, each line terminated by a newline. -/
def to_csv (rows : List Row) : String :=
  String.intercalate ","
      (declaredColumns.map csvField) ++ "\n" ++
    String.join (rows.map (fun r =>
      String.intercalate ","
          (declaredColumns.map (fun c => csvField (csvCell ((List.lookup c r).getD Val.null))))
        ++ "\n"))

/-- The download artifact (lines 389-395): the timestamped file name and the
CSV text.  The capture timestamp enters only the file name. -/
def csvDownload (rows : List Row) (timestamp : String) : String × String :=
  ("raw_data_" ++ timestamp ++ ".csv", to_csv rows)

/-! ## Claims about row shape -/

theorem lookup_isSome_of_mem_keys (l : List (String × Val)) (c : String)
    (h : c ∈ l.map Prod.fst) : (List.lookup c l).isSome := by
  induction l with
  | nil => simp at h
  | cons kv rest ih =>
    rw [List.map_cons] at h
    rcases List.mem_cons.mp h with h1 | h2
    · obtain ⟨k, v⟩ := kv
      simp only [List.lookup]
      simp only at h1
      rw [show (c == k) = true by simp [h1]]
      rfl
    · obtain ⟨k, v⟩ := kv
      simp only [List.lookup]
      by_cases hc : c == k
      · rw [show (c == k) = true by simpa using hc]
        rfl
      · rw [show (c == k) = false by simpa using hc]
        exact ih h2

/-- The columns holding per-ticker data (everything except the ticker key,
the two status cells and the boolean availability flag). -/
def dataColumns : List String :=
  ["SEC_Filing_Date", "Yahoo_Price",
   "SEC_Total_Assets", "SEC_Total_Liabilities", "SEC_Total_Equity",
   "SEC_Total_Debt_ST", "SEC_Total_Debt_LT", "SEC_Cash",
   "SEC_Revenue_Current", "SEC_Revenue_Prior", "SEC_COGS", "SEC_Gross_Profit",
   "SEC_Net_Income_Current", "SEC_Net_Income_Prior", "SEC_EPS_Current",
   "SEC_EPS_Prior", "SEC_Operating_CF", "SEC_CapEx", "SEC_Net_Debt_Issued",
   "SEC_Interest_Paid", "Yahoo_Market_Cap", "Yahoo_Shares_Out",
   "Yahoo_P/E_Trailing", "Yahoo_EPS_TTM", "Yahoo_EPS_Trailing",
   "Yahoo_Dividend_Yield", "Yahoo_Book_Value", "Yahoo_P/B",
   "Yahoo_Gross_Margin", "Yahoo_Net_Margin", "Yahoo_ROA", "Yahoo_ROE",
   "Yahoo_Revenue_TTM", "Yahoo_Net_Income_TTM", "Yahoo_Total_Debt",
   "Yahoo_Net_Debt", "Yahoo_D/E_Ratio", "Yahoo_52W_High", "Yahoo_52W_Low",
   "Yahoo_Avg_Volume"]

/-- C2: for every ticker and every combination of market-fetch and
filing-lookup successes or failures, the assembled row has exactly the
declared column set (so no row ever lacks a column), every declared column
is present with a value, and when every datum is missing (the `raw_data`
dicts untouched beyond their status cells) every data column holds null. -/
theorem c2_row_shape (t : String) (sec : SecRaw) (yah : RawYahoo) :
    (raw_entry t sec yah).map Prod.fst = declaredColumns ∧
    (∀ c, c ∈ declaredColumns → (List.lookup c (raw_entry t sec yah)).isSome) ∧
    (∀ ss ys c, c ∈ dataColumns →
      List.lookup c
        (raw_entry t { secRawInit with sec_status := ss } { yahooInit with status := ys })
        = some Val.null) := by
  refine ⟨rfl, ?_, ?_⟩
  · intro c hc
    exact lookup_isSome_of_mem_keys _ c (by rw [raw_entry_keys]; exact hc)
  · intro ss ys c hc
    fin_cases hc <;> rfl

theorem c2_row_shape_witness :
    ("SEC_Total_Assets" ∈ declaredColumns ∧
      (List.lookup "SEC_Total_Assets" (raw_entry "AAPL" secRawInit yahooInit)).isSome = true) ∧
    ("SEC_Total_Assets" ∈ dataColumns ∧
      List.lookup "SEC_Total_Assets"
        (raw_entry "AAPL" { secRawInit with sec_status := some "❌ Not Found" }
          { yahooInit with status := some "❌ Error: boom" })
        = some Val.null) :=
  ⟨⟨by decide, (c2_row_shape "AAPL" secRawInit yahooInit).2.1 "SEC_Total_Assets" (by decide)⟩,
   ⟨by decide, (c2_row_shape "AAPL" secRawInit yahooInit).2.2 (some "❌ Not Found")
      (some "❌ Error: boom") "SEC_Total_Assets" (by decide)⟩⟩

/-! ## Claims about the Yahoo fetch error path -/

/-- C3 counterexample: the claim says the error status is truncated to a
bounded maximum length, but line 226 interpolates `str(e)` whole — no bound
covers all exception messages. -/
theorem c3_unbounded_counterexample :
    ¬ ∃ N, ∀ e, ((get_yahoo_finance_data (.raise e)).status.getD "").length ≤ N := by
  rintro ⟨N, h⟩
  have hN := h (String.mk (List.replicate (N + 1) 'a'))
  have hst : (get_yahoo_finance_data (.raise (String.mk (List.replicate (N + 1) 'a')))).status
      = some ("❌ Error: " ++ String.mk (List.replicate (N + 1) 'a')) := rfl
  rw [hst] at hN
  simp only [Option.getD_some] at hN
  rw [String.length_append] at hN
  have h9 : ("❌ Error: " : String).length = 9 := by decide
  have hrep : (String.mk (List.replicate (N + 1) 'a')).length = N + 1 := by
    show (List.replicate (N + 1) 'a').length = N + 1
    exact List.length_replicate _ _
  rw [h9, hrep] at hN
  omega

/-- C3 (amended): on any transport or parsing exception the returned
snapshot has every data field null, and the status is `'❌ Error: '`
followed by the FULL exception text — not truncated (unlike the SEC
fetchers' `[:30]` / `[:50]`). -/
theorem c3_yahoo_error_all_null :
    (∀ e, get_yahoo_finance_data (.raise e)
        = { yahooInit with status := some ("❌ Error: " ++ e) }) ∧
    (∀ info : YahooInfo, pyTruthy info.currentPrice = false →
      get_yahoo_finance_data (.ok info [])
        = { yahooInit with status := some ("❌ Error: " ++ ilocOobMsg) }) := by
  refine ⟨fun e => rfl, fun info h => ?_⟩
  simp [get_yahoo_finance_data, h]

theorem c3_yahoo_error_all_null_witness :
    get_yahoo_finance_data (.ok {} [])
      = { yahooInit with status := some ("❌ Error: " ++ ilocOobMsg) } :=
  c3_yahoo_error_all_null.2 {} (by decide)

/-! ## Claims about the filing-metadata lookup -/

/-- C4: a well-formed 200 response with at least one filing entry yields
status `✅ Found` with date and accession identifier taken from the first
entry; a well-formed response with no entries (empty list or missing keys)
yields `❌ Not Found`; a transport failure or timeout yields null data
fields and an error-message status of bounded length (at most 40
characters: the `'⚠️ Error: '` tag plus `str(e)[:30]`). -/
theorem c4_filing_lookup :
    (∀ (filing : FilingEntry) (rest : List FilingEntry),
      get_sec_filings_metadata (.ok 200 (.ok ⟨some (some (filing :: rest))⟩))
        = ⟨filing.filingDate, filing.accessionNumber, "✅ Found"⟩) ∧
    (get_sec_filings_metadata (.ok 200 (.ok ⟨some (some [])⟩))
        = ⟨none, none, "❌ Not Found"⟩ ∧
      get_sec_filings_metadata (.ok 200 (.ok ⟨some none⟩)) = ⟨none, none, "❌ Not Found"⟩ ∧
      get_sec_filings_metadata (.ok 200 (.ok ⟨none⟩)) = ⟨none, none, "❌ Not Found"⟩) ∧
    (∀ e, get_sec_filings_metadata (.raise e)
        = ⟨none, none, "⚠️ Error: " ++ pyTake 30 e⟩ ∧
      (get_sec_filings_metadata (.raise e)).status.length ≤ 40) := by
  refine ⟨fun filing rest => rfl, ⟨rfl, rfl, rfl⟩, fun e => ⟨rfl, ?_⟩⟩
  show ("⚠️ Error: " ++ pyTake 30 e).length ≤ 40
  rw [String.length_append]
  have h10 : ("⚠️ Error: " : String).length = 10 := by decide
  have h30 : (pyTake 30 e).length ≤ 30 := by
    show (e.toList.take 30).length ≤ 30
    rw [List.length_take]
    exact inf_le_left
  omega

/-! ## Claims about the current-price fallback (line 185) -/

def c5Info : YahooInfo := { currentPrice := some 0 }

/-- C5 counterexample: the live quote `0` is present, yet
`info.get('currentPrice') or hist['Close'].iloc[-1]` discards it (Python
`or` treats `0` as falsy) and the most recent daily close is used instead. -/
theorem c5_zero_quote_counterexample :
    c5Info.currentPrice = some 0 ∧
    (get_yahoo_finance_data (.ok c5Info [42])).current_price = some 42 ∧
    (get_yahoo_finance_data (.ok c5Info [42])).current_price ≠ c5Info.currentPrice := by
  refine ⟨rfl, by decide, by decide⟩

/-- C5 (amended): `current_price` equals the live quote when the quote is
present and nonzero (truthy); when the quote is absent or zero it falls back
to the most recent daily close; when the quote is absent-or-zero and the
daily-close series is empty, the fetch fails and `current_price` is null. -/
theorem c5_current_price :
    (∀ info hist, pyTruthy info.currentPrice = true →
      (get_yahoo_finance_data (.ok info hist)).current_price = info.currentPrice) ∧
    (∀ info hist c, pyTruthy info.currentPrice = false → hist.getLast? = some c →
      (get_yahoo_finance_data (.ok info hist)).current_price = some c) ∧
    (∀ info, pyTruthy info.currentPrice = false →
      (get_yahoo_finance_data (.ok info [])).current_price = none) := by
  refine ⟨fun info hist h => ?_, fun info hist c h hl => ?_, fun info h => ?_⟩
  · simp [get_yahoo_finance_data, h, yahooFill]
  · simp [get_yahoo_finance_data, h, hl, yahooFill]
  · simp [get_yahoo_finance_data, h, yahooInit]

def c5wInfo : YahooInfo := { currentPrice := some 7 }

theorem c5_current_price_witness :
    (get_yahoo_finance_data (.ok c5wInfo [3])).current_price = some 7 ∧
    (get_yahoo_finance_data (.ok {} [3])).current_price = some 3 ∧
    (get_yahoo_finance_data (.ok {} [])).current_price = none :=
  ⟨c5_current_price.1 c5wInfo [3] (by decide),
   c5_current_price.2.1 {} [3] 3 (by decide) (by decide),
   c5_current_price.2.2 {} (by decide)⟩

/-! ## The end-to-end success scenario -/

def scenarioSecEnv : SecEnv :=
  { metaResp := .ok 200 (.ok ⟨some (some [⟨some "2024-01-15", some "0000320193-24-000001"⟩])⟩),
    cikResp := none,
    assetsResp := none }

def scenarioInfo : YahooInfo := { currentPrice := some 100 }

/-- Both providers succeed for every ticker: the filing lookup finds one
10-K entry and the market fetch returns a truthy quote plus history. -/
def scenarioEnv : List Char → TickerEnv :=
  fun _ => ⟨scenarioSecEnv, .ok scenarioInfo [99, 100]⟩

/-- C6 (bug evaluation): on input `"AAPL\nMSFT"` with both providers
succeeding and both filings existing, the table has 2 rows, total tickers is
2 and the market-success count is 2 — but the filings-found count is 0, not
the claimed 2: `get_sec_financial_data` overwrites `sec_status` with
`'✅ Found | Filing: <date>'` (line 124), so the exact comparison against
`'✅ Found'` at line 380 never matches. -/
theorem c6_summary_counts :
    (runScreener ("AAPL\nMSFT").toList scenarioEnv).rows.length = 2 ∧
    (runScreener ("AAPL\nMSFT").toList scenarioEnv).totalTickers = 2 ∧
    (runScreener ("AAPL\nMSFT").toList scenarioEnv).yahooSuccess = 2 ∧
    (runScreener ("AAPL\nMSFT").toList scenarioEnv).secFound = 0 ∧
    ((runScreener ("AAPL\nMSFT").toList scenarioEnv).rows.map
        (fun r => List.lookup "SEC_Status" r))
      = [some (Val.str "✅ Found | Filing: 2024-01-15"),
         some (Val.str "✅ Found | Filing: 2024-01-15")] := by
  decide

/-! ## Claims about the placeholder SEC columns -/

def c7SecEnv : SecEnv :=
  { metaResp := .ok 200 (.ok ⟨some (some [⟨some "2024-01-15", some "acc-1"⟩])⟩),
    cikResp := some 320193,
    assetsResp := some [some 1000] }

/-- C7 counterexample: when the opportunistic CIK lookup and the
companyfacts `Assets.json` fetch both succeed, lines 104-120 populate
`total_assets`, so the `SEC_Total_Assets` column — named by the claim as an
always-null placeholder — carries a number. -/
theorem c7_total_assets_counterexample :
    List.lookup "SEC_Total_Assets"
        (raw_entry "AAPL" (get_sec_financial_data c7SecEnv) yahooInit)
      = some (Val.num 1000) ∧ Val.num 1000 ≠ Val.null := by
  exact ⟨by decide, by decide⟩

/-- Every result of `get_sec_financial_data` differs from the initialized
dict only in `filing_date`, `sec_status` and `total_assets`. -/
theorem get_sec_financial_data_shape (env : SecEnv) :
    ∃ fd ss ta, get_sec_financial_data env
      = { secRawInit with filing_date := fd, sec_status := ss, total_assets := ta } := by
  unfold get_sec_financial_data
  dsimp only
  split
  · exact ⟨_, _, none, rfl⟩
  · exact ⟨_, _, _, rfl⟩

/-- The placeholder financial-statement columns other than
`SEC_Total_Assets`. -/
def placeholderColumns : List String :=
  ["SEC_Total_Liabilities", "SEC_Total_Equity", "SEC_Total_Debt_ST",
   "SEC_Total_Debt_LT", "SEC_Cash", "SEC_Revenue_Current", "SEC_Revenue_Prior",
   "SEC_COGS", "SEC_Gross_Profit", "SEC_Net_Income_Current",
   "SEC_Net_Income_Prior", "SEC_EPS_Current", "SEC_EPS_Prior",
   "SEC_Operating_CF", "SEC_CapEx", "SEC_Net_Debt_Issued", "SEC_Interest_Paid"]

/-- C7 (amended): every placeholder financial-statement column EXCEPT
`SEC_Total_Assets` is null in every produced row, for every provider
response; `SEC_Total_Assets` alone can be populated by the opportunistic
companyfacts fetch (see the counterexample). -/
theorem c7_placeholders_null (env : SecEnv) (t : String) (yah : RawYahoo) :
    ∀ c ∈ placeholderColumns,
      List.lookup c (raw_entry t (get_sec_financial_data env) yah) = some Val.null := by
  obtain ⟨fd, ss, ta, hshape⟩ := get_sec_financial_data_shape env
  rw [hshape]
  intro c hc
  fin_cases hc <;> rfl

theorem c7_placeholders_null_witness :
    List.lookup "SEC_Operating_CF"
        (raw_entry "AAPL" (get_sec_financial_data c7SecEnv) yahooInit) = some Val.null :=
  c7_placeholders_null c7SecEnv "AAPL" yahooInit "SEC_Operating_CF" (by decide)

/-- C8: serializing the same assembled table to CSV twice yields
byte-identical output text — the body is a pure function of the rows and
the capture timestamp enters only the download file name
(`raw_data_<timestamp>.csv`). -/
theorem c8_export_idempotent (rows : List Row) (t1 t2 : String) :
    (csvDownload rows t1).2 = (csvDownload rows t2).2 ∧
    (csvDownload rows t1).2 = to_csv rows ∧
    (csvDownload rows t1).1 = "raw_data_" ++ t1 ++ ".csv" :=
  ⟨rfl, rfl, rfl⟩

/-- C10: when the filing-metadata status is not exactly `'✅ Found'`,
`get_sec_financial_data` returns immediately: every financial field is null,
`sec_status` equals the metadata status verbatim (no decoration), and the
result is independent of the CIK-resolution and Assets-fetch responses —
the early return at lines 90-91 precedes both further SEC requests. -/
theorem c10_early_return (env env' : SecEnv)
    (hmeta : (get_sec_filings_metadata env.metaResp).status ≠ "✅ Found")
    (hsame : env'.metaResp = env.metaResp) :
    get_sec_financial_data env
      = { secRawInit with
          filing_date := (get_sec_filings_metadata env.metaResp).filing_date,
          sec_status := some (get_sec_filings_metadata env.metaResp).status } ∧
    get_sec_financial_data env = get_sec_financial_data env' := by
  have key : ∀ e : SecEnv, e.metaResp = env.metaResp →
      get_sec_financial_data e
        = { secRawInit with
            filing_date := (get_sec_filings_metadata env.metaResp).filing_date,
            sec_status := some (get_sec_filings_metadata env.metaResp).status } := by
    intro e he
    unfold get_sec_financial_data
    rw [he]
    dsimp only
    rw [if_pos hmeta]
  exact ⟨key env rfl, (key env rfl).trans (key env' hsame).symm⟩

def c10Env : SecEnv :=
  { metaResp := .ok 404 (.error "HTTPError"), cikResp := none, assetsResp := none }

def c10Env' : SecEnv :=
  { metaResp := .ok 404 (.error "HTTPError"), cikResp := some 5, assetsResp := some [some 1] }

theorem c10_early_return_witness :
    get_sec_financial_data c10Env
      = { secRawInit with filing_date := none, sec_status := some "❌ Not Found" } ∧
    get_sec_financial_data c10Env = get_sec_financial_data c10Env' :=
  c10_early_return c10Env c10Env' (by decide) rfl
